import Mathlib

/-!
Shallow embedding of the analytics aggregation layer of the business-analytics
repository: the canned SQL aggregation queries of
`supabase/migrations/20250709072849_snowy_summit.sql` (top customers, monthly
trend, category performance, segmentation, channel, payment, top products,
retention, discount impact, geographic distribution), the `customer_metrics`
view of the schema file, the custom-query keyword validator of
`docs/technical_documentation.md`, and the derived-metrics operations the
documentation describes.  Monetary values are modelled as exact rationals
(the schema stores fixed 2-decimal DECIMALs); SQL `ROUND(x, k)` is modelled
by `roundTo`, `strftime` month keys by the numeric key `year * 100 + month`
(which sorts exactly like the "YYYY-MM" strings), and `ORDER BY` by a
stable insertion sort (`sortBy`), matching SQLite's group enumeration in
ascending primary-key order followed by its stable in-memory sorter.
-/

namespace PhonePe

/-- Customer segment enumeration: the `customer_segment` CHECK constraint of
the schema admits exactly Premium, Standard and Basic. -/

inductive Segment where
  | premium
  | standard
  | basic
deriving DecidableEq, Repr

/-- Row of the `customers` table (the columns used by the embedded queries). -/

structure Customer where
  customer_id : Nat
  first_name : String
  last_name : String
  city : String
  state : String
  customer_segment : Segment
deriving DecidableEq, Repr

/-- Row of the `products` table (the columns used by the embedded queries). -/

structure Product where
  product_id : Nat
  product_name : String
  category : String
  brand : String
  price : ℚ
  cost : ℚ
deriving DecidableEq, Repr

/-- Calendar date stored in a `transaction_date` column. -/

structure Date where
  year : Nat
  month : Nat
  day : Nat
deriving DecidableEq, Repr

/-- Row of the `transactions` table. -/

structure Transaction where
  transaction_id : Nat
  customer_id : Nat
  product_id : Nat
  transaction_date : Date
  quantity : Nat
  unit_price : ℚ
  total_amount : ℚ
  discount_amount : ℚ
  payment_method : String
  sales_channel : String
deriving DecidableEq, Repr

/-- SQL `ROUND(x, k)`: round to `k` decimal places (ties toward positive
infinity in this model). -/

def roundTo (k : Nat) (x : ℚ) : ℚ :=
  ((round (x * (10 : ℚ) ^ k) : ℤ) : ℚ) / (10 : ℚ) ^ k

/-- Numeric key for `strftime('%Y-%m', transaction_date)`: for four-digit
years this key is ordered exactly like the "YYYY-MM" string. -/

def monthKey (d : Date) : Nat := d.year * 100 + d.month

/-- Stable insertion step: place `x` before the first element `y` with
`bf x y`, hence after every earlier element it does not beat. -/

def insertBy {α : Type*} (bf : α → α → Bool) (x : α) : List α → List α
  | [] => [x]
  | y :: ys => if bf x y then x :: y :: ys else y :: insertBy bf x ys

/-- Stable insertion sort realizing SQL `ORDER BY`: elements are folded in
input order, so elements the comparator does not separate keep their
input order. -/

def sortBy {α : Type*} (bf : α → α → Bool) (l : List α) : List α :=
  l.foldl (fun acc x => insertBy bf x acc) []

/-! ### Discount impact analysis (query 9 of the migration) -/

/-- Labels of the CASE expression of query 9. -/

inductive DiscountBucket where
  | noDiscount
  | low
  | medium
  | high
deriving DecidableEq, Repr

/-- CASE expression of query 9: `WHEN discount_amount = 0` → No Discount,
`WHEN discount_amount <= 10` → Low, `WHEN discount_amount <= 25` → Medium,
`ELSE` → High. -/

def discountBucket (d : ℚ) : DiscountBucket :=
  if d = 0 then .noDiscount
  else if d ≤ 10 then .low
  else if d ≤ 25 then .medium
  else .high

/-- Output row of query 9. -/

structure DiscountRow where
  discount_category : DiscountBucket
  transaction_count : Nat
  avg_order_value : ℚ
  avg_items_per_order : ℚ
  total_revenue : ℚ
deriving DecidableEq, Repr

/-- Transactions of one discount bucket. -/

def discountMatches (b : DiscountBucket) (ts : List Transaction) : List Transaction :=
  ts.filter (fun t => discountBucket t.discount_amount == b)

/-- Aggregates of query 9 for one bucket (`COUNT`, `AVG(total_amount)`,
`AVG(quantity)`, `SUM(total_amount)`). -/

def discountRow (ts : List Transaction) (b : DiscountBucket) : DiscountRow where
  discount_category := b
  transaction_count := (discountMatches b ts).length
  avg_order_value :=
    ((discountMatches b ts).map (·.total_amount)).sum / ((discountMatches b ts).length : ℚ)
  avg_items_per_order :=
    ((discountMatches b ts).map (fun t => (t.quantity : ℚ))).sum /
      ((discountMatches b ts).length : ℚ)
  total_revenue := ((discountMatches b ts).map (·.total_amount)).sum

/-- Query 9: one row per bucket with at least one transaction (`GROUP BY`
produces only inhabited groups), ordered by average order value descending. -/

def discountImpact (ts : List Transaction) : List DiscountRow :=
  sortBy (fun a b => decide (b.avg_order_value < a.avg_order_value))
    (([DiscountBucket.noDiscount, .low, .medium, .high].filter
        (fun b => ts.any (fun t => discountBucket t.discount_amount == b))).map
      (discountRow ts))

/-! ### Partition lemmas -/

/-! ### Generic grouping facts -/

/-! ### Sales channel performance (query 5) and payment analysis (query 6) -/

/-- Output row of query 5. -/

structure ChannelRow where
  sales_channel : String
  total_transactions : Nat
  total_revenue : ℚ
  avg_order_value : ℚ
  unique_customers : Nat
  percentage_of_total : ℚ
deriving DecidableEq, Repr

/-- Transactions of one sales channel (query 5 groups the bare
`transactions` table, with no join). -/

def channelMatches (ch : String) (ts : List Transaction) : List Transaction :=
  ts.filter (fun t => decide (t.sales_channel = ch))

/-- Aggregates of query 5 for one channel. -/

def channelRow (ts : List Transaction) (ch : String) : ChannelRow where
  sales_channel := ch
  total_transactions := (channelMatches ch ts).length
  total_revenue := ((channelMatches ch ts).map (·.total_amount)).sum
  avg_order_value :=
    ((channelMatches ch ts).map (·.total_amount)).sum / ((channelMatches ch ts).length : ℚ)
  unique_customers := ((channelMatches ch ts).map (·.customer_id)).dedup.length
  percentage_of_total :=
    roundTo 2 (((channelMatches ch ts).length : ℚ) * 100 / (ts.length : ℚ))

/-- Query 5: `GROUP BY sales_channel ORDER BY total_revenue DESC` over the
transactions table alone. -/

def channelAnalysis (ts : List Transaction) : List ChannelRow :=
  sortBy (fun a b => decide (b.total_revenue < a.total_revenue))
    (((ts.map (·.sales_channel)).dedup).map (channelRow ts))

/-- Output row of query 6. -/

structure PaymentRow where
  payment_method : String
  transaction_count : Nat
  total_amount : ℚ
  avg_transaction_value : ℚ
  usage_percentage : ℚ
deriving DecidableEq, Repr

/-- Transactions of one payment method. -/

def paymentMatches (pm : String) (ts : List Transaction) : List Transaction :=
  ts.filter (fun t => decide (t.payment_method = pm))

/-- Aggregates of query 6 for one payment method. -/

def paymentRow (ts : List Transaction) (pm : String) : PaymentRow where
  payment_method := pm
  transaction_count := (paymentMatches pm ts).length
  total_amount := ((paymentMatches pm ts).map (·.total_amount)).sum
  avg_transaction_value :=
    ((paymentMatches pm ts).map (·.total_amount)).sum / ((paymentMatches pm ts).length : ℚ)
  usage_percentage :=
    roundTo 2 (((paymentMatches pm ts).length : ℚ) * 100 / (ts.length : ℚ))

/-- Query 6: `GROUP BY payment_method ORDER BY transaction_count DESC` over
the transactions table alone. -/

def paymentAnalysis (ts : List Transaction) : List PaymentRow :=
  sortBy (fun a b => decide (b.transaction_count < a.transaction_count))
    (((ts.map (·.payment_method)).dedup).map (paymentRow ts))

/-! ### Monthly sales trend (query 2) with the documented growth rate -/

/-- Output row of query 2. -/

structure TrendRow where
  month : Nat
  total_transactions : Nat
  total_revenue : ℚ
  avg_order_value : ℚ
  unique_customers : Nat
  total_items_sold : Nat
deriving DecidableEq, Repr

/-- Transactions of one calendar month. -/

def monthMatches (m : Nat) (ts : List Transaction) : List Transaction :=
  ts.filter (fun t => decide (monthKey t.transaction_date = m))

/-- Aggregates of query 2 for one month. -/

def trendRow (ts : List Transaction) (m : Nat) : TrendRow where
  month := m
  total_transactions := (monthMatches m ts).length
  total_revenue := ((monthMatches m ts).map (·.total_amount)).sum
  avg_order_value :=
    ((monthMatches m ts).map (·.total_amount)).sum / ((monthMatches m ts).length : ℚ)
  unique_customers := ((monthMatches m ts).map (·.customer_id)).dedup.length
  total_items_sold := ((monthMatches m ts).map (·.quantity)).sum

/-- Query 2: one row per month present in the transactions, `GROUP BY`
month key, `ORDER BY month` ascending. -/

def monthlyTrendBase (ts : List Transaction) : List TrendRow :=
  (sortBy (fun a b => decide (a < b))
      ((ts.map (fun t => monthKey t.transaction_date)).dedup)).map (trendRow ts)

/-- Monthly-trend row extended with the growth rate of the documented
sales-performance analysis. -/

structure TrendGrowthRow where
  month : Nat
  total_transactions : Nat
  total_revenue : ℚ
  avg_order_value : ℚ
  unique_customers : Nat
  total_items_sold : Nat
  growth_rate : Option ℚ
deriving DecidableEq, Repr

/-- Modelled from the spec: the month-over-month growth rate
`(revenue[month] - revenue[previous month]) / revenue[previous month] * 100`
rounded to 1 decimal place, which the documentation attributes to the absent
`src/analysis.py` (`sales_performance_analysis` monthly trend). -/

def growthRate (prev cur : ℚ) : ℚ :=
  roundTo 1 ((cur - prev) / prev * 100)

/-- Modelled from the spec: attach the growth rate to each monthly row; the
first row (no prior month) gets `none`. -/

def withGrowth : Option ℚ → List TrendRow → List TrendGrowthRow
  | _, [] => []
  | prev, r :: rs =>
    { month := r.month
      total_transactions := r.total_transactions
      total_revenue := r.total_revenue
      avg_order_value := r.avg_order_value
      unique_customers := r.unique_customers
      total_items_sold := r.total_items_sold
      growth_rate := prev.map (fun p => growthRate p r.total_revenue) } ::
      withGrowth (some r.total_revenue) rs

/-- The monthly-trend report: query 2 rows with the documented growth-rate
column attached (none for the first month). -/

def monthlyTrend (ts : List Transaction) : List TrendGrowthRow :=
  withGrowth none (monthlyTrendBase ts)

/-- Projection of a growth row back onto the query 2 columns. -/

def dropGrowth (r : TrendGrowthRow) : TrendRow where
  month := r.month
  total_transactions := r.total_transactions
  total_revenue := r.total_revenue
  avg_order_value := r.avg_order_value
  unique_customers := r.unique_customers
  total_items_sold := r.total_items_sold

/-- Concrete two-month dataset used to instantiate the monthly-trend
theorem: May and June 2023 with revenues 100 and 150. -/

def trendWitnessTs : List Transaction :=
  [⟨1, 1, 1, ⟨2023, 5, 1⟩, 1, 100, 100, 0, "Credit Card", "Online"⟩,
   ⟨2, 1, 1, ⟨2023, 6, 1⟩, 1, 150, 150, 0, "Credit Card", "Online"⟩]

/-! ### Join lookups -/

/-- SQL join partner `customers c ON c.customer_id = t.customer_id` (the
schema makes `customer_id` a primary key, so at most one row matches). -/
def lookupCustomer (cs : List Customer) (i : Nat) : Option Customer :=
  cs.find? (fun c => c.customer_id == i)

/-- SQL join partner `products p ON p.product_id = t.product_id`. -/
def lookupProduct (ps : List Product) (i : Nat) : Option Product :=
  ps.find? (fun p => p.product_id == i)

/-- A transaction that survives the inner JOIN with `products`. -/
def validProduct (ps : List Product) (t : Transaction) : Bool :=
  (lookupProduct ps t.product_id).isSome

/-- A transaction that survives the inner JOIN with `customers`. -/
def validCustomer (cs : List Customer) (t : Transaction) : Bool :=
  (lookupCustomer cs t.customer_id).isSome

/-! ### Product category performance (query 3) -/

/-- Output row of query 3. -/
structure CategoryRow where
  category : String
  total_sales : Nat
  total_revenue : ℚ
  avg_sale_amount : ℚ
  total_quantity_sold : Nat
  unique_customers : Nat
deriving DecidableEq, Repr

/-- Category a transaction contributes to through the products join
(`none` when the referenced product does not exist). -/
def categoryOf (ps : List Product) (t : Transaction) : Option String :=
  (lookupProduct ps t.product_id).map (fun p => p.category)

/-- Join rows of query 3 belonging to one category. -/
def categoryMatches (ps : List Product) (c : String) (ts : List Transaction) :
    List Transaction :=
  ts.filter (fun t => decide (categoryOf ps t = some c))

/-- Aggregates of query 3 for one category. -/
def categoryRow (ps : List Product) (ts : List Transaction) (c : String) : CategoryRow where
  category := c
  total_sales := (categoryMatches ps c ts).length
  total_revenue := ((categoryMatches ps c ts).map (·.total_amount)).sum
  avg_sale_amount :=
    ((categoryMatches ps c ts).map (·.total_amount)).sum /
      ((categoryMatches ps c ts).length : ℚ)
  total_quantity_sold := ((categoryMatches ps c ts).map (·.quantity)).sum
  unique_customers := ((categoryMatches ps c ts).map (·.customer_id)).dedup.length

/-- Query 3: `products JOIN transactions GROUP BY p.category ORDER BY
total_revenue DESC`; transactions whose product id matches no product are
dropped by the inner join. -/
def categoryAnalysis (ps : List Product) (ts : List Transaction) : List CategoryRow :=
  sortBy (fun a b => decide (b.total_revenue < a.total_revenue))
    (((ts.filterMap (categoryOf ps)).dedup).map (categoryRow ps ts))

/-- Column names of the SELECT list of query 3, as written in the source. -/
def categoryAnalysisColumns : List String :=
  ["category", "total_sales", "total_revenue", "avg_sale_amount",
   "total_quantity_sold", "unique_customers"]

/-! ### Geographic sales distribution (query 10) -/

/-- Output row of query 10. -/
structure StateRow where
  state : String
  customer_count : Nat
  total_transactions : Nat
  total_revenue : ℚ
  avg_order_value : ℚ
deriving DecidableEq, Repr

/-- State a transaction contributes to through the customers join. -/
def stateOf (cs : List Customer) (t : Transaction) : Option String :=
  (lookupCustomer cs t.customer_id).map (fun c => c.state)

/-- Join rows of query 10 belonging to one state. -/
def stateMatches (cs : List Customer) (st : String) (ts : List Transaction) :
    List Transaction :=
  ts.filter (fun t => decide (stateOf cs t = some st))

/-- Aggregates of query 10 for one state. -/
def stateRow (cs : List Customer) (ts : List Transaction) (st : String) : StateRow where
  state := st
  customer_count := ((stateMatches cs st ts).map (·.customer_id)).dedup.length
  total_transactions := (stateMatches cs st ts).length
  total_revenue := ((stateMatches cs st ts).map (·.total_amount)).sum
  avg_order_value :=
    ((stateMatches cs st ts).map (·.total_amount)).sum /
      ((stateMatches cs st ts).length : ℚ)

/-- Query 10: `customers JOIN transactions GROUP BY c.state ORDER BY
total_revenue DESC`. -/
def geographicDistribution (cs : List Customer) (ts : List Transaction) : List StateRow :=
  sortBy (fun a b => decide (b.total_revenue < a.total_revenue))
    (((ts.filterMap (stateOf cs)).dedup).map (stateRow cs ts))

/-! ### Customer metrics view and segmentation analysis (query 4) -/

/-- Row of the `customer_metrics` view: `customers LEFT JOIN transactions
GROUP BY c.customer_id`.  The LEFT JOIN keeps customers without
transactions; for them `SUM` and `AVG` are NULL, modelled as `none` (the
view's first/last purchase-date columns are unused by the embedded reports
and omitted). -/
structure CustomerMetrics where
  customer_id : Nat
  customer_name : String
  customer_segment : Segment
  city : String
  state : String
  total_transactions : Nat
  total_spent : Option ℚ
  avg_order_value : Option ℚ
deriving DecidableEq, Repr

/-- Transactions of one customer, as grouped by the view. -/
def customerTransactions (c : Customer) (ts : List Transaction) : List Transaction :=
  ts.filter (fun t => decide (t.customer_id = c.customer_id))

/-- One `customer_metrics` row. -/
def customerMetricsRow (ts : List Transaction) (c : Customer) : CustomerMetrics where
  customer_id := c.customer_id
  customer_name := c.first_name ++ " " ++ c.last_name
  customer_segment := c.customer_segment
  city := c.city
  state := c.state
  total_transactions := (customerTransactions c ts).length
  total_spent :=
    if (customerTransactions c ts).length = 0 then none
    else some ((customerTransactions c ts).map (·.total_amount)).sum
  avg_order_value :=
    if (customerTransactions c ts).length = 0 then none
    else some (((customerTransactions c ts).map (·.total_amount)).sum /
      ((customerTransactions c ts).length : ℚ))

/-- The `customer_metrics` view: one row per customer (LEFT JOIN). -/
def customer_metrics (cs : List Customer) (ts : List Transaction) : List CustomerMetrics :=
  cs.map (customerMetricsRow ts)

/-- Output row of query 4. -/
structure SegmentRow where
  customer_segment : Segment
  customer_count : Nat
  avg_customer_value : Option ℚ
  avg_transactions_per_customer : ℚ
  avg_order_value : Option ℚ
deriving DecidableEq, Repr

/-- SQLite ordering on nullable values: NULL sorts below every value. -/
def optLt : Option ℚ → Option ℚ → Bool
  | none, none => false
  | none, some _ => true
  | some _, none => false
  | some x, some y => decide (x < y)

/-- Aggregates of query 4 for one segment over the view rows; SQL `AVG`
ignores NULL inputs and is NULL on an all-NULL group. -/
def segmentRowOf (ms : List CustomerMetrics) (s : Segment) : SegmentRow where
  customer_segment := s
  customer_count := (ms.filter (fun r => decide (r.customer_segment = s))).length
  avg_customer_value :=
    if ((ms.filter (fun r => decide (r.customer_segment = s))).filterMap
        (fun r => r.total_spent)).length = 0 then none
    else some ((((ms.filter (fun r => decide (r.customer_segment = s))).filterMap
        (fun r => r.total_spent)).sum) /
      (((ms.filter (fun r => decide (r.customer_segment = s))).filterMap
        (fun r => r.total_spent)).length : ℚ))
  avg_transactions_per_customer :=
    ((ms.filter (fun r => decide (r.customer_segment = s))).map
        (fun r => (r.total_transactions : ℚ))).sum /
      ((ms.filter (fun r => decide (r.customer_segment = s))).length : ℚ)
  avg_order_value :=
    if ((ms.filter (fun r => decide (r.customer_segment = s))).filterMap
        (fun r => r.avg_order_value)).length = 0 then none
    else some ((((ms.filter (fun r => decide (r.customer_segment = s))).filterMap
        (fun r => r.avg_order_value)).sum) /
      (((ms.filter (fun r => decide (r.customer_segment = s))).filterMap
        (fun r => r.avg_order_value)).length : ℚ))

/-- Query 4 over a given list of view rows: `GROUP BY customer_segment
ORDER BY avg_customer_value DESC` (NULL last). -/
def segmentAnalysisOf (ms : List CustomerMetrics) : List SegmentRow :=
  sortBy (fun a b => optLt b.avg_customer_value a.avg_customer_value)
    (((ms.map (fun r => r.customer_segment)).dedup).map (segmentRowOf ms))

/-- Query 4: customer segmentation analysis over the `customer_metrics`
view. -/
def segmentAnalysis (cs : List Customer) (ts : List Transaction) : List SegmentRow :=
  segmentAnalysisOf (customer_metrics cs ts)

instance : Fintype Segment where
  elems := ⟨[Segment.premium, Segment.standard, Segment.basic], by decide⟩
  complete := by intro s; cases s <;> decide

/-- Concrete scenario of the spec: three customers, two products, four
transactions across two months, one of which (70.00 revenue) references the
nonexistent product id 99. -/
def scenarioCustomers : List Customer :=
  [⟨1, "Ann", "Price", "New York", "NY", .premium⟩,
   ⟨2, "Ben", "Stone", "Los Angeles", "CA", .standard⟩,
   ⟨3, "Cal", "Brook", "Chicago", "IL", .basic⟩]

/-- Products of the scenario: price 100 / cost 50 and price 50 / cost 20. -/
def scenarioProducts : List Product :=
  [⟨1, "Widget", "Gadgets", "BrandA", 100, 50⟩,
   ⟨2, "Gizmo", "Gizmos", "BrandB", 50, 20⟩]

/-- Transactions of the scenario; the last one is the dangling one. -/
def scenarioTransactions : List Transaction :=
  [⟨1, 1, 1, ⟨2023, 1, 5⟩, 1, 100, 100, 0, "Credit Card", "Online"⟩,
   ⟨2, 2, 2, ⟨2023, 1, 6⟩, 1, 50, 50, 0, "PayPal", "Online"⟩,
   ⟨3, 3, 1, ⟨2023, 2, 7⟩, 1, 100, 100, 0, "Cash", "In-Store"⟩,
   ⟨4, 1, 99, ⟨2023, 2, 8⟩, 1, 70, 70, 0, "Credit Card", "Online"⟩]

/-- One Premium customer with no transactions at all: the input refuting the
claim that a segment without transacting customers never appears. -/
def segWitnessCs : List Customer :=
  [⟨1, "John", "Smith", "New York", "NY", .premium⟩]

/-! ### Top customers (query 1) and top products (query 7) -/

/-- Output row of query 1. -/
structure TopCustomerRow where
  customer_id : Nat
  customer_name : String
  customer_segment : Segment
  total_spent : ℚ
  total_orders : Nat
  avg_order_value : ℚ
deriving DecidableEq, Repr

/-- Transactions of one customer id. -/
def customerIdMatches (i : Nat) (ts : List Transaction) : List Transaction :=
  ts.filter (fun t => decide (t.customer_id = i))

/-- Aggregates of query 1 for one customer; the lookup defaults are
unreachable because the grouped ids come from the customers table itself. -/
def topCustomerRow (cs : List Customer) (ts : List Transaction) (i : Nat) :
    TopCustomerRow where
  customer_id := i
  customer_name :=
    ((lookupCustomer cs i).map (fun c => c.first_name ++ " " ++ c.last_name)).getD ""
  customer_segment := ((lookupCustomer cs i).map (fun c => c.customer_segment)).getD .basic
  total_spent := ((customerIdMatches i ts).map (·.total_amount)).sum
  total_orders := (customerIdMatches i ts).length
  avg_order_value :=
    ((customerIdMatches i ts).map (·.total_amount)).sum /
      ((customerIdMatches i ts).length : ℚ)

/-- Query 1 generalized over the LIMIT: customers are grouped in ascending
primary-key order (SQLite scans the `customers` b-tree), joined transactions
aggregated, sorted by total spending descending with SQLite's stable
in-memory sorter, and truncated to `n`. -/
def topCustomers (n : Nat) (cs : List Customer) (ts : List Transaction) :
    List TopCustomerRow :=
  (sortBy (fun a b => decide (b.total_spent < a.total_spent))
    (((sortBy (fun a b => decide (a < b)) ((cs.map (fun c => c.customer_id)).dedup)).filter
        (fun i => ts.any (fun t => decide (t.customer_id = i)))).map
      (topCustomerRow cs ts))).take n

/-- Output row of query 7. -/
structure TopProductRow where
  product_id : Nat
  product_name : String
  category : String
  brand : String
  price : ℚ
  times_sold : Nat
  total_quantity : Nat
  total_revenue : ℚ
  total_profit : ℚ
deriving DecidableEq, Repr

/-- Transactions of one product id. -/
def productIdMatches (i : Nat) (ts : List Transaction) : List Transaction :=
  ts.filter (fun t => decide (t.product_id = i))

/-- Aggregates of query 7 for one product, including
`ROUND((p.price - p.cost) * SUM(t.quantity), 2)`. -/
def topProductRow (ps : List Product) (ts : List Transaction) (i : Nat) :
    TopProductRow where
  product_id := i
  product_name := ((lookupProduct ps i).map (fun p => p.product_name)).getD ""
  category := ((lookupProduct ps i).map (fun p => p.category)).getD ""
  brand := ((lookupProduct ps i).map (fun p => p.brand)).getD ""
  price := ((lookupProduct ps i).map (fun p => p.price)).getD 0
  times_sold := (productIdMatches i ts).length
  total_quantity := ((productIdMatches i ts).map (·.quantity)).sum
  total_revenue := ((productIdMatches i ts).map (·.total_amount)).sum
  total_profit :=
    roundTo 2 ((((lookupProduct ps i).map (fun p => p.price)).getD 0 -
        ((lookupProduct ps i).map (fun p => p.cost)).getD 0) *
      (((productIdMatches i ts).map (·.quantity)).sum : ℚ))

/-- Query 7 generalized over the LIMIT, built like `topCustomers`. -/
def topProducts (n : Nat) (ps : List Product) (ts : List Transaction) :
    List TopProductRow :=
  (sortBy (fun a b => decide (b.total_revenue < a.total_revenue))
    (((sortBy (fun a b => decide (a < b)) ((ps.map (fun p => p.product_id)).dedup)).filter
        (fun i => ts.any (fun t => decide (t.product_id = i)))).map
      (topProductRow ps ts))).take n

/-- Entity kinds accepted by the top-entities operation. -/
inductive EntityKind where
  | customers
  | products
deriving DecidableEq, Repr

/-- The top-entities operation: identifier and revenue contribution of the
top `n` entities of the requested kind. -/
def topEntities (k : EntityKind) (n : Nat) (cs : List Customer) (ps : List Product)
    (ts : List Transaction) : List (Nat × ℚ) :=
  match k with
  | .customers => (topCustomers n cs ts).map (fun r => (r.customer_id, r.total_spent))
  | .products => (topProducts n ps ts).map (fun r => (r.product_id, r.total_revenue))

/-- Two customers with tied revenue, listed with the higher identifier
first, so that the reported order is decided by the engine and not by the
input order. -/
def tieCustomers : List Customer :=
  [⟨2, "Ben", "Stone", "Los Angeles", "CA", .standard⟩,
   ⟨1, "Ann", "Price", "New York", "NY", .premium⟩]

/-- One 100.00 transaction for each tied customer. -/
def tieTransactions : List Transaction :=
  [⟨1, 2, 1, ⟨2023, 1, 5⟩, 1, 100, 100, 0, "Credit Card", "Online"⟩,
   ⟨2, 1, 1, ⟨2023, 1, 6⟩, 1, 100, 100, 0, "Credit Card", "Online"⟩]

/-! ### Product profitability (documentation SQL) and substring search -/

/-- Substring test on character lists, the semantics of Python's
`keyword in query` membership operator. -/
def containsSub (needle : List Char) : List Char → Bool
  | [] => needle.isEmpty
  | c :: rest => needle.isPrefixOf (c :: rest) || containsSub needle rest

/-- Output row of the Product Profitability Analysis query of the
documentation. -/
structure ProfitabilityRow where
  category : String
  total_profit : ℚ
  total_revenue : ℚ
  profit_margin : ℚ
deriving DecidableEq, Repr

/-- Join-row profit term `(p.price - p.cost) * t.quantity` for the product
referenced by a transaction (0 when the join finds no product; such
transactions never occur inside a category group). -/
def profitOf (ps : List Product) (t : Transaction) : ℚ :=
  match lookupProduct ps t.product_id with
  | some p => (p.price - p.cost) * (t.quantity : ℚ)
  | none => 0

/-- Aggregates of the profitability query for one category: unrounded
`SUM((p.price - p.cost) * t.quantity)`, `SUM(t.total_amount)`, and the
margin rounded to 2 decimals. -/
def profitabilityRow (ps : List Product) (ts : List Transaction) (c : String) :
    ProfitabilityRow where
  category := c
  total_profit := ((categoryMatches ps c ts).map (fun t => profitOf ps t)).sum
  total_revenue := ((categoryMatches ps c ts).map (·.total_amount)).sum
  profit_margin :=
    roundTo 2 (((categoryMatches ps c ts).map (fun t => profitOf ps t)).sum * 100 /
      ((categoryMatches ps c ts).map (·.total_amount)).sum)

/-- Documentation query: `products JOIN transactions GROUP BY p.category
ORDER BY total_profit DESC`. -/
def productProfitability (ps : List Product) (ts : List Transaction) :
    List ProfitabilityRow :=
  sortBy (fun a b => decide (b.total_profit < a.total_profit))
    (((ts.filterMap (categoryOf ps)).dedup).map (profitabilityRow ps ts))

/-! ### Custom-query validation (documented validator) -/

/-- The documented validator's keyword list — five entries, no INSERT. -/
def dangerous_keywords : List String :=
  ["DROP", "DELETE", "UPDATE", "ALTER", "CREATE"]

/-- The documented check `any(keyword in query.upper() for keyword in
dangerous_keywords)`: substring match over the uppercased query text
(uppercasing modelled character-wise; the keywords are ASCII). -/
def queryBlocked (q : String) : Bool :=
  dangerous_keywords.any (fun k => containsSub k.toList (q.toList.map Char.toUpper))

/-- Error outcomes of the custom-query path: the validation rejection
(raised as a ValueError before any execution) is a distinct constructor
from a runtime query error. -/
inductive QueryError where
  | validationError
  | runtimeError (msg : String)
deriving DecidableEq, Repr

/-- Modelled from the spec: the custom-query entry point of the absent
Streamlit dashboard validates the text first and only hands it to the
executor (`exec`, the database layer) when no dangerous keyword matches; a
blocked query is rejected synchronously, before execution. -/
def runCustomQuery {ρ : Type*} (exec : String → Except QueryError ρ) (q : String) :
    Except QueryError ρ :=
  if queryBlocked q then Except.error QueryError.validationError else exec q

/-- An INSERT statement containing none of the five keywords. -/
def insertExample : String := "INSERT INTO customers VALUES (11)"

/-- A statement containing the keyword DROP. -/
def dropExample : String := "DROP TABLE customers"

/-- A purely read-only SELECT whose identifier contains UPDATED, hence the
substring UPDATE. -/
def updExample : String := "SELECT updated_at FROM customers"

/-! ### Total metrics (documented overview operation) -/

/-- Output of the documented `totalMetrics` overview row. -/
structure TotalMetrics where
  total_revenue : ℚ
  transaction_count : Nat
  avg_order_value : ℚ
  unique_customers : Nat
deriving DecidableEq, Repr

/-- Modelled from the spec: `totalMetrics()` of the absent
`src/analysis.py` (`sales_performance_analysis` total_metrics) — total
revenue, transaction count, average order value with sentinel 0 on an empty
collection, and distinct customer count. -/
def totalMetrics (ts : List Transaction) : TotalMetrics where
  total_revenue := (ts.map (·.total_amount)).sum
  transaction_count := ts.length
  avg_order_value :=
    if ts.length = 0 then 0 else (ts.map (·.total_amount)).sum / (ts.length : ℚ)
  unique_customers := (ts.map (·.customer_id)).dedup.length

/-- The two-month dataset of `trendWitnessTs` with the second month's
revenue changed from 150 to 200, so its growth rate differs. -/
def trendWitnessTs2 : List Transaction :=
  [⟨1, 1, 1, ⟨2023, 5, 1⟩, 1, 100, 100, 0, "Credit Card", "Online"⟩,
   ⟨2, 1, 1, ⟨2023, 6, 1⟩, 1, 200, 200, 0, "Credit Card", "Online"⟩]

/-! ### Theorems -/

theorem insertBy_perm {α : Type*} (bf : α → α → Bool) (x : α) :
    ∀ l : List α, List.Perm (insertBy bf x l) (x :: l) := by
  intro l
  induction l with
  | nil => exact List.Perm.refl _
  | cons y ys ih =>
    simp only [insertBy]
    split
    · exact List.Perm.refl _
    · exact (List.Perm.cons y ih).trans (List.Perm.swap x y ys)

theorem foldl_insertBy_perm {α : Type*} (bf : α → α → Bool) :
    ∀ (l acc : List α),
      List.Perm (l.foldl (fun a x => insertBy bf x a) acc) (l ++ acc) := by
  intro l
  induction l with
  | nil => intro acc; simp
  | cons x xs ih =>
    intro acc
    have h1 : (x :: xs).foldl (fun a y => insertBy bf y a) acc
        = xs.foldl (fun a y => insertBy bf y a) (insertBy bf x acc) := rfl
    rw [h1]
    exact ((ih _).trans (List.Perm.append_left _ (insertBy_perm bf x acc))).trans
      List.perm_middle

theorem sortBy_perm {α : Type*} (bf : α → α → Bool) (l : List α) :
    List.Perm (sortBy bf l) l := by
  simpa using foldl_insertBy_perm bf l []

theorem mem_sortBy {α : Type*} {bf : α → α → Bool} {l : List α} {a : α} :
    a ∈ sortBy bf l ↔ a ∈ l :=
  (sortBy_perm bf l).mem_iff

theorem sum_map_filter_of_zero {β : Type*} (p : β → Bool) (f : β → Nat) :
    ∀ l : List β, (∀ b ∈ l, p b = false → f b = 0) →
      ((l.filter p).map f).sum = (l.map f).sum := by
  intro l
  induction l with
  | nil => intro _; rfl
  | cons b bs ih =>
    intro h
    by_cases hb : p b = true
    · simp [List.filter_cons, hb, ih fun x hx => h x (List.mem_cons_of_mem b hx)]
    · simp only [Bool.not_eq_true] at hb
      simp [List.filter_cons, hb, h b (List.mem_cons_self b bs) hb,
        ih fun x hx => h x (List.mem_cons_of_mem b hx)]

theorem discountMatches_length_sum (ts : List Transaction) :
    ([DiscountBucket.noDiscount, .low, .medium, .high].map
        (fun b => (discountMatches b ts).length)).sum = ts.length := by
  induction ts with
  | nil => rfl
  | cons t ts ih =>
    simp only [discountMatches, List.filter_cons] at ih ⊢
    cases h : discountBucket t.discount_amount <;> simp [h] at ih ⊢ <;> omega

theorem sortBy_map_sum {α β : Type*} [AddCommMonoid β] (bf : α → α → Bool)
    (f : α → β) (l : List α) : ((sortBy bf l).map f).sum = (l.map f).sum :=
  ((sortBy_perm bf l).map f).sum_eq

theorem mem_discountImpact {ts : List Transaction} {r : DiscountRow} :
    r ∈ discountImpact ts ↔
      ∃ b, ts.any (fun t => discountBucket t.discount_amount == b) = true ∧
        discountRow ts b = r := by
  constructor
  · intro h
    rcases List.mem_map.mp (mem_sortBy.mp h) with ⟨b, hb, hr⟩
    exact ⟨b, (List.mem_filter.mp hb).2, hr⟩
  · rintro ⟨b, hb, rfl⟩
    refine mem_sortBy.mpr (List.mem_map_of_mem _ (List.mem_filter.mpr ⟨?_, hb⟩))
    cases b <;> simp

theorem discountBucket_iff (q : ℚ) (hq : 0 ≤ q) :
    (discountBucket q = .noDiscount ↔ q = 0) ∧
    (discountBucket q = .low ↔ 0 < q ∧ q ≤ 10) ∧
    (discountBucket q = .medium ↔ 10 < q ∧ q ≤ 25) ∧
    (discountBucket q = .high ↔ 25 < q) := by
  unfold discountBucket
  split_ifs with h1 h2 h3
  · subst h1
    exact ⟨iff_of_true rfl rfl, iff_of_false (by decide) (by norm_num),
      iff_of_false (by decide) (by norm_num), iff_of_false (by decide) (by norm_num)⟩
  · have h0 : 0 < q := lt_of_le_of_ne hq (Ne.symm h1)
    exact ⟨iff_of_false (by decide) h1, iff_of_true rfl ⟨h0, h2⟩,
      iff_of_false (by decide) (fun h => absurd h.1 (not_lt.mpr h2)),
      iff_of_false (by decide) (fun h => absurd h (not_lt.mpr (h2.trans (by norm_num))))⟩
  · have h10 : 10 < q := not_le.mp h2
    exact ⟨iff_of_false (by decide) (fun h => by simp [h] at h10; linarith),
      iff_of_false (by decide) (fun h => absurd h10 (not_lt.mpr h.2)),
      iff_of_true rfl ⟨h10, h3⟩,
      iff_of_false (by decide) (fun h => absurd h (not_lt.mpr h3))⟩
  · have h25 : 25 < q := not_le.mp h3
    exact ⟨iff_of_false (by decide) (fun h => by simp [h] at h25; linarith),
      iff_of_false (by decide) (fun h => absurd h25 (not_lt.mpr (h.2.trans (by norm_num)))),
      iff_of_false (by decide) (fun h => absurd h25 (not_lt.mpr h.2)),
      iff_of_true rfl h25⟩

/-- C1: the discount-impact report assigns each transaction to exactly one
bucket of its discount amount (`0` → No Discount, `(0, 10]` → Low — so
exactly 10.00 is Low, `(10, 25]` → Medium — so 10.01 is Medium, `> 25` →
High); every row reports the transaction count, average order value,
average item quantity and total revenue of its bucket; a bucket with no
matching transaction does not appear, and the per-row counts add up to the
whole input, so every transaction lands in exactly one emitted bucket. -/

theorem discountImpact_buckets (ts : List Transaction) (q : ℚ) (hq : 0 ≤ q) :
    (∀ r ∈ discountImpact ts, 0 < r.transaction_count) ∧
    (∀ b : DiscountBucket,
      (∃ t ∈ ts, discountBucket t.discount_amount = b) ↔
        ∃ r ∈ discountImpact ts, r.discount_category = b) ∧
    (∀ r ∈ discountImpact ts,
      r.transaction_count = (discountMatches r.discount_category ts).length ∧
      r.avg_order_value =
        ((discountMatches r.discount_category ts).map (fun t => t.total_amount)).sum /
          ((discountMatches r.discount_category ts).length : ℚ) ∧
      r.avg_items_per_order =
        ((discountMatches r.discount_category ts).map (fun t => (t.quantity : ℚ))).sum /
          ((discountMatches r.discount_category ts).length : ℚ) ∧
      r.total_revenue =
        ((discountMatches r.discount_category ts).map (fun t => t.total_amount)).sum) ∧
    ((discountImpact ts).map (fun r => r.transaction_count)).sum = ts.length ∧
    (discountBucket q = .noDiscount ↔ q = 0) ∧
    (discountBucket q = .low ↔ 0 < q ∧ q ≤ 10) ∧
    (discountBucket q = .medium ↔ 10 < q ∧ q ≤ 25) ∧
    (discountBucket q = .high ↔ 25 < q) := by
  obtain ⟨hbn, hbl, hbm, hbh⟩ := discountBucket_iff q hq
  refine ⟨?_, ?_, ?_, ?_, hbn, hbl, hbm, hbh⟩
  · intro r hr
    rcases mem_discountImpact.mp hr with ⟨b, hb, rfl⟩
    rcases List.any_eq_true.mp hb with ⟨t, ht, hbt⟩
    have : t ∈ discountMatches b ts := List.mem_filter.mpr ⟨ht, hbt⟩
    exact List.length_pos.mpr (List.ne_nil_of_mem this)
  · intro b
    constructor
    · rintro ⟨t, ht, hbt⟩
      refine ⟨discountRow ts b, mem_discountImpact.mpr ⟨b, ?_, rfl⟩, rfl⟩
      exact List.any_eq_true.mpr ⟨t, ht, by simp [hbt]⟩
    · rintro ⟨r, hr, rfl⟩
      rcases mem_discountImpact.mp hr with ⟨b, hb, rfl⟩
      rcases List.any_eq_true.mp hb with ⟨t, ht, hbt⟩
      exact ⟨t, ht, by simpa using hbt⟩
  · intro r hr
    rcases mem_discountImpact.mp hr with ⟨b, _, rfl⟩
    exact ⟨rfl, rfl, rfl, rfl⟩
  · rw [discountImpact, sortBy_map_sum, List.map_map]
    have hcomp :
        ((fun r => r.transaction_count) ∘ discountRow ts) =
          fun b => (discountMatches b ts).length := rfl
    rw [hcomp,
      sum_map_filter_of_zero _ _ _ ?_, discountMatches_length_sum]
    intro b _ hb
    have : discountMatches b ts = [] := by
      rw [discountMatches, List.filter_eq_nil_iff]
      intro t ht
      intro hc
      have hany : (ts.any (fun u => discountBucket u.discount_amount == b)) = true :=
        List.any_eq_true.mpr ⟨t, ht, hc⟩
      rw [hb] at hany
      exact Bool.false_ne_true hany
    rw [this]
    rfl

/-- Witness for C1 at a concrete input: a single transaction with a 10.01
discount lands in the Medium bucket and the emitted row counts cover the
input. -/

theorem discountImpact_buckets_witness :
    (0 : ℚ) ≤ 10.01 ∧
      (discountBucket 10.01 = .medium ↔ (10 : ℚ) < 10.01 ∧ (10.01 : ℚ) ≤ 25) := by
  refine ⟨by norm_num, (discountImpact_buckets [] 10.01 (by norm_num)).2.2.2.2.2.2.1⟩

theorem sum_length_keyFilter {α κ : Type*} [DecidableEq κ] (f : α → κ) (l : List α) :
    (((l.map f).dedup).map (fun k => (l.filter (fun a => decide (f a = k))).length)).sum
      = l.length := by
  have hcount : ∀ k, (l.filter (fun a => decide (f a = k))).length = (l.map f).count k := by
    intro k
    rw [List.count_eq_countP, ← List.countP_eq_length_filter, List.countP_map]
    apply List.countP_congr
    intro a _
    simp
  rw [List.map_congr_left (fun k _ => hcount k), List.sum_map_count_dedup_eq_length,
    List.length_map]

theorem insertBy_sorted_le {β : Type*} [LinearOrder β] (x : β) :
    ∀ l : List β, l.Pairwise (· ≤ ·) →
      (insertBy (fun a b => decide (a < b)) x l).Pairwise (· ≤ ·) := by
  intro l
  induction l with
  | nil => intro _; simp [insertBy]
  | cons y ys ih =>
    intro hl
    simp only [insertBy]
    split
    · rename_i hxy
      rw [decide_eq_true_eq] at hxy
      refine List.Pairwise.cons ?_ hl
      intro z hz
      rcases List.mem_cons.mp hz with rfl | hz
      · exact le_of_lt hxy
      · exact le_trans (le_of_lt hxy) (List.rel_of_pairwise_cons hl hz)
    · rename_i hxy
      rw [decide_eq_true_eq] at hxy
      refine List.Pairwise.cons ?_ (ih (List.Pairwise.sublist (List.sublist_cons_self y ys) hl))
      intro z hz
      rcases List.mem_cons.mp ((insertBy_perm _ x ys).mem_iff.mp hz) with rfl | hz2
      · exact le_of_not_lt hxy
      · exact List.rel_of_pairwise_cons hl hz2

theorem sortBy_sorted_le {β : Type*} [LinearOrder β] (l : List β) :
    (sortBy (fun a b => decide (a < b)) l).Pairwise (· ≤ ·) := by
  have haux : ∀ (l acc : List β), acc.Pairwise (· ≤ ·) →
      (l.foldl (fun a x => insertBy (fun a b => decide (a < b)) x a) acc).Pairwise (· ≤ ·) := by
    intro l
    induction l with
    | nil => intro acc h; exact h
    | cons x xs ih => intro acc h; exact ih _ (insertBy_sorted_le x acc h)
  exact haux l [] (List.Pairwise.nil)

theorem sortBy_lt_of_nodup {β : Type*} [LinearOrder β] {l : List β} (hl : l.Nodup) :
    (sortBy (fun a b => decide (a < b)) l).Pairwise (· < ·) :=
  List.Sorted.lt_of_le (sortBy_sorted_le l) (((sortBy_perm _ l).nodup_iff).mpr hl)

theorem withGrowth_map_dropGrowth :
    ∀ (p : Option ℚ) (l : List TrendRow), (withGrowth p l).map dropGrowth = l := by
  intro p l
  induction l generalizing p with
  | nil => rfl
  | cons r rs ih => simp [withGrowth, dropGrowth, ih]

theorem withGrowth_growth_succ :
    ∀ (l : List TrendRow) (p : Option ℚ) (i : Nat) (r0 r1 : TrendRow),
      l[i]? = some r0 → l[i + 1]? = some r1 →
      ((withGrowth p l)[i + 1]?).map (fun r => r.growth_rate)
        = some (some (growthRate r0.total_revenue r1.total_revenue)) := by
  intro l
  induction l with
  | nil => intro p i r0 r1 h0 _; simp at h0
  | cons r rs ih =>
    intro p i r0 r1 h0 h1
    cases i with
    | zero =>
      simp only [List.getElem?_cons_zero, Option.some.injEq] at h0
      subst h0
      cases rs with
      | nil => simp at h1
      | cons r2 rs2 =>
        simp only [List.getElem?_cons_succ, List.getElem?_cons_zero,
          Option.some.injEq] at h1
        subst h1
        simp [withGrowth]
    | succ j =>
      simp only [List.getElem?_cons_succ] at h0 h1
      simpa [withGrowth] using ih (some r.total_revenue) j r0 r1 h0 h1

theorem monthlyTrend_months (ts : List Transaction) :
    (monthlyTrend ts).map (fun r => r.month)
      = sortBy (fun a b => decide (a < b))
          ((ts.map (fun t => monthKey t.transaction_date)).dedup) := by
  have h1 : (monthlyTrend ts).map (fun r => r.month)
      = ((monthlyTrend ts).map dropGrowth).map (fun r => r.month) := by
    rw [List.map_map]; rfl
  rw [h1, monthlyTrend, withGrowth_map_dropGrowth, monthlyTrendBase, List.map_map]
  exact List.map_id _

/-- C4: the monthly-trend report has one row per calendar month present in
the transactions (sparse, zero-transaction months omitted), in strictly
ascending month order; the first row carries no growth rate, and every later
row carries `(curr.revenue - prev.revenue) / prev.revenue * 100` rounded to
one decimal place.  The growth-rate column itself is modelled from the spec,
the underlying rows are query 2 of the migration. -/

theorem monthlyTrend_spec (ts : List Transaction) :
    ((monthlyTrend ts).map (fun r => r.month)).Pairwise (· < ·) ∧
    (∀ m : Nat, (∃ r ∈ monthlyTrend ts, r.month = m) ↔
        ∃ t ∈ ts, monthKey t.transaction_date = m) ∧
    (∀ r, (monthlyTrend ts).head? = some r → r.growth_rate = none) ∧
    (∀ (i : Nat) (r0 r1 : TrendGrowthRow), (monthlyTrend ts)[i]? = some r0 →
        (monthlyTrend ts)[i + 1]? = some r1 →
        r1.growth_rate =
          some (roundTo 1
            ((r1.total_revenue - r0.total_revenue) / r0.total_revenue * 100))) := by
  refine ⟨?_, ?_, ?_, ?_⟩
  · rw [monthlyTrend_months]
    exact sortBy_lt_of_nodup (List.nodup_dedup _)
  · intro m
    constructor
    · rintro ⟨r, hr, rfl⟩
      have hm : r.month ∈ (monthlyTrend ts).map (fun x => x.month) :=
        List.mem_map_of_mem _ hr
      rw [monthlyTrend_months] at hm
      rcases List.mem_map.mp ((List.mem_dedup).mp (mem_sortBy.mp hm)) with ⟨t, ht, hkey⟩
      exact ⟨t, ht, hkey⟩
    · rintro ⟨t, ht, hkey⟩
      have hm : m ∈ (monthlyTrend ts).map (fun x => x.month) := by
        rw [monthlyTrend_months]
        exact mem_sortBy.mpr ((List.mem_dedup).mpr (List.mem_map.mpr ⟨t, ht, hkey⟩))
      rcases List.mem_map.mp hm with ⟨r, hr, hrm⟩
      exact ⟨r, hr, hrm⟩
  · intro r hr
    rw [monthlyTrend] at hr
    cases hb : monthlyTrendBase ts with
    | nil => rw [hb] at hr; simp [withGrowth] at hr
    | cons x xs =>
      rw [hb] at hr
      simp only [withGrowth, List.head?_cons, Option.some.injEq] at hr
      rw [← hr]
      rfl
  · intro i r0 r1 h0 h1
    have hb0 : (monthlyTrendBase ts)[i]? = some (dropGrowth r0) := by
      conv_lhs => rw [← withGrowth_map_dropGrowth none (monthlyTrendBase ts)]
      rw [List.getElem?_map, ← monthlyTrend, h0]
      rfl
    have hb1 : (monthlyTrendBase ts)[i + 1]? = some (dropGrowth r1) := by
      conv_lhs => rw [← withGrowth_map_dropGrowth none (monthlyTrendBase ts)]
      rw [List.getElem?_map, ← monthlyTrend, h1]
      rfl
    have h := withGrowth_growth_succ (monthlyTrendBase ts) none i
      (dropGrowth r0) (dropGrowth r1) hb0 hb1
    rw [← monthlyTrend, h1] at h
    simpa [growthRate, dropGrowth] using h

theorem trendWitness_len0 : 0 < (monthlyTrend trendWitnessTs).length := by
  rw [monthlyTrend, ← List.length_map (withGrowth none (monthlyTrendBase trendWitnessTs)) dropGrowth,
    withGrowth_map_dropGrowth, monthlyTrendBase, List.length_map,
    (sortBy_perm _ _).length_eq]
  decide

theorem trendWitness_len1 : 1 < (monthlyTrend trendWitnessTs).length := by
  rw [monthlyTrend, ← List.length_map (withGrowth none (monthlyTrendBase trendWitnessTs)) dropGrowth,
    withGrowth_map_dropGrowth, monthlyTrendBase, List.length_map,
    (sortBy_perm _ _).length_eq]
  decide

/-- Witness for C4: on a concrete two-month dataset the second row of the
monthly trend carries the rounded month-over-month growth rate; the getElem
hypotheses of the theorem are discharged at that input. -/

theorem monthlyTrend_spec_witness :
    ((monthlyTrend trendWitnessTs).get ⟨1, trendWitness_len1⟩).growth_rate
      = some (roundTo 1
          ((((monthlyTrend trendWitnessTs).get ⟨1, trendWitness_len1⟩).total_revenue -
            ((monthlyTrend trendWitnessTs).get ⟨0, trendWitness_len0⟩).total_revenue) /
            ((monthlyTrend trendWitnessTs).get ⟨0, trendWitness_len0⟩).total_revenue
              * 100)) :=
  (monthlyTrend_spec trendWitnessTs).2.2.2 0 _ _
    (List.getElem?_eq_getElem trendWitness_len0)
    (List.getElem?_eq_getElem trendWitness_len1)

theorem filter_filter_of_imp {α : Type*} (p q : α → Bool) (l : List α)
    (h : ∀ a, q a = true → p a = true) : (l.filter p).filter q = l.filter q := by
  induction l with
  | nil => rfl
  | cons a l ih =>
    by_cases hq : q a = true
    · simp [List.filter_cons, h a hq, hq, ih]
    · have hq2 : q a = false := by revert hq; cases q a <;> simp
      cases hp : p a <;> simp [List.filter_cons, hp, hq2, ih]

theorem filterMap_filter_of_some {α β : Type*} (p : α → Bool) (f : α → Option β)
    (l : List α) (h : ∀ a, p a = false → f a = none) :
    (l.filter p).filterMap f = l.filterMap f := by
  induction l with
  | nil => rfl
  | cons a l ih =>
    cases hp : p a
    · simp [List.filter_cons, hp, List.filterMap_cons, h a hp, ih]
    · simp [List.filter_cons, hp, List.filterMap_cons, ih]

theorem customer_metrics_filter_valid (cs : List Customer) (ts : List Transaction) :
    customer_metrics cs (ts.filter (validCustomer cs)) = customer_metrics cs ts := by
  unfold customer_metrics
  apply List.map_congr_left
  intro c hc
  have hmatch : customerTransactions c (ts.filter (validCustomer cs))
      = customerTransactions c ts := by
    unfold customerTransactions
    apply filter_filter_of_imp
    intro t ht
    rw [decide_eq_true_eq] at ht
    unfold validCustomer lookupCustomer
    rw [List.find?_isSome]
    exact ⟨c, hc, by simp [ht]⟩
  unfold customerMetricsRow
  rw [hmatch]

theorem segmentAnalysis_filter_valid (cs : List Customer) (ts : List Transaction) :
    segmentAnalysis cs (ts.filter (validCustomer cs)) = segmentAnalysis cs ts := by
  unfold segmentAnalysis
  exact congrArg segmentAnalysisOf (customer_metrics_filter_valid cs ts)

theorem categoryOf_none_of_invalid (ps : List Product) (t : Transaction)
    (ht : validProduct ps t = false) : categoryOf ps t = none := by
  unfold validProduct at ht
  unfold categoryOf
  rcases h : lookupProduct ps t.product_id with _ | p
  · rfl
  · rw [h] at ht; simp at ht

theorem categoryAnalysis_filter_valid (ps : List Product) (ts : List Transaction) :
    categoryAnalysis ps (ts.filter (validProduct ps)) = categoryAnalysis ps ts := by
  have hrow : ∀ c, categoryRow ps (ts.filter (validProduct ps)) c = categoryRow ps ts c := by
    intro c
    have hmatch : categoryMatches ps c (ts.filter (validProduct ps))
        = categoryMatches ps c ts := by
      unfold categoryMatches
      apply filter_filter_of_imp
      intro t ht
      rw [decide_eq_true_eq] at ht
      unfold validProduct
      unfold categoryOf at ht
      rcases h : lookupProduct ps t.product_id with _ | p
      · rw [h] at ht; simp at ht
      · rfl
    unfold categoryRow
    rw [hmatch]
  unfold categoryAnalysis
  rw [filterMap_filter_of_some _ _ _ (categoryOf_none_of_invalid ps)]
  exact congrArg _ (List.map_congr_left (fun c _ => hrow c))

theorem stateOf_none_of_invalid (cs : List Customer) (t : Transaction)
    (ht : validCustomer cs t = false) : stateOf cs t = none := by
  unfold validCustomer at ht
  unfold stateOf
  rcases h : lookupCustomer cs t.customer_id with _ | c
  · rfl
  · rw [h] at ht; simp at ht

theorem geographicDistribution_filter_valid (cs : List Customer) (ts : List Transaction) :
    geographicDistribution cs (ts.filter (validCustomer cs))
      = geographicDistribution cs ts := by
  have hrow : ∀ st, stateRow cs (ts.filter (validCustomer cs)) st = stateRow cs ts st := by
    intro st
    have hmatch : stateMatches cs st (ts.filter (validCustomer cs))
        = stateMatches cs st ts := by
      unfold stateMatches
      apply filter_filter_of_imp
      intro t ht
      rw [decide_eq_true_eq] at ht
      unfold validCustomer
      unfold stateOf at ht
      rcases h : lookupCustomer cs t.customer_id with _ | c
      · rw [h] at ht; simp at ht
      · rfl
    unfold stateRow
    rw [hmatch]
  unfold geographicDistribution
  rw [filterMap_filter_of_some _ _ _ (stateOf_none_of_invalid cs)]
  exact congrArg _ (List.map_congr_left (fun st _ => hrow st))

theorem channelAnalysis_count_sum (ts : List Transaction) :
    ((channelAnalysis ts).map (fun r => r.total_transactions)).sum = ts.length := by
  rw [channelAnalysis, sortBy_map_sum, List.map_map]
  exact sum_length_keyFilter (fun t => t.sales_channel) ts

theorem paymentAnalysis_count_sum (ts : List Transaction) :
    ((paymentAnalysis ts).map (fun r => r.transaction_count)).sum = ts.length := by
  rw [paymentAnalysis, sortBy_map_sum, List.map_map]
  exact sum_length_keyFilter (fun t => t.payment_method) ts

theorem monthlyTrend_count_sum (ts : List Transaction) :
    ((monthlyTrend ts).map (fun r => r.total_transactions)).sum = ts.length := by
  have h2 : (monthlyTrend ts).map (fun r => r.total_transactions)
      = ((monthlyTrend ts).map dropGrowth).map (fun r => r.total_transactions) := by
    rw [List.map_map]; rfl
  rw [h2, monthlyTrend, withGrowth_map_dropGrowth, monthlyTrendBase, List.map_map,
    sortBy_map_sum]
  have hcomp : ((fun r : TrendRow => r.total_transactions) ∘ trendRow ts)
      = fun m => (ts.filter (fun t => decide (monthKey t.transaction_date = m))).length := rfl
  rw [hcomp]
  have hfin := sum_length_keyFilter (fun t => monthKey t.transaction_date) ts
  exact hfin

theorem scenario_catKeys :
    ((scenarioTransactions.filterMap (categoryOf scenarioProducts)).dedup)
      = ["Gizmos", "Gadgets"] := by decide

theorem scenario_catGadgets :
    (categoryMatches scenarioProducts "Gadgets" scenarioTransactions).map
        (fun t => t.total_amount) = [100, 100] := by decide

theorem scenario_catGizmos :
    (categoryMatches scenarioProducts "Gizmos" scenarioTransactions).map
        (fun t => t.total_amount) = [50] := by decide

theorem scenario_chanKeys :
    ((scenarioTransactions.map (fun t => t.sales_channel)).dedup)
      = ["In-Store", "Online"] := by decide

theorem scenario_chanInStore :
    (channelMatches "In-Store" scenarioTransactions).map
        (fun t => t.total_amount) = [100] := by decide

theorem scenario_chanOnline :
    (channelMatches "Online" scenarioTransactions).map
        (fun t => t.total_amount) = [100, 50, 70] := by decide

/-- C2: a transaction referencing a nonexistent customer or product id is
invisible to the entity-keyed reports — the category, geographic and segment
reports are unchanged when such transactions are removed — while the no-join
reports still count every transaction: the per-row transaction counts of the
channel, payment and monthly reports always add up to the full input length.
On the spec's concrete scenario (four transactions, one referencing product
id 99), the category report's revenue is 250 (the dangling 70 excluded) and
the channel report's revenue is 320 (the dangling 70 included). -/
theorem joinAsymmetry (cs : List Customer) (ps : List Product) (ts : List Transaction) :
    (categoryAnalysis ps (ts.filter (validProduct ps)) = categoryAnalysis ps ts) ∧
    (geographicDistribution cs (ts.filter (validCustomer cs))
      = geographicDistribution cs ts) ∧
    (segmentAnalysis cs (ts.filter (validCustomer cs)) = segmentAnalysis cs ts) ∧
    ((channelAnalysis ts).map (fun r => r.total_transactions)).sum = ts.length ∧
    ((paymentAnalysis ts).map (fun r => r.transaction_count)).sum = ts.length ∧
    ((monthlyTrend ts).map (fun r => r.total_transactions)).sum = ts.length ∧
    ((categoryAnalysis scenarioProducts scenarioTransactions).map
        (fun r => r.total_revenue)).sum = 250 ∧
    ((channelAnalysis scenarioTransactions).map (fun r => r.total_revenue)).sum = 320 := by
  refine ⟨categoryAnalysis_filter_valid ps ts, geographicDistribution_filter_valid cs ts,
    segmentAnalysis_filter_valid cs ts, channelAnalysis_count_sum ts,
    paymentAnalysis_count_sum ts, monthlyTrend_count_sum ts, ?_, ?_⟩
  · rw [categoryAnalysis, sortBy_map_sum, List.map_map, scenario_catKeys]
    simp only [List.map_cons, List.map_nil, Function.comp]
    have h1 : (categoryRow scenarioProducts scenarioTransactions "Gizmos").total_revenue
        = (50 : ℚ) := by
      rw [show (categoryRow scenarioProducts scenarioTransactions "Gizmos").total_revenue
          = ((categoryMatches scenarioProducts "Gizmos" scenarioTransactions).map
            (fun t => t.total_amount)).sum from rfl, scenario_catGizmos]
      norm_num
    have h2 : (categoryRow scenarioProducts scenarioTransactions "Gadgets").total_revenue
        = (200 : ℚ) := by
      rw [show (categoryRow scenarioProducts scenarioTransactions "Gadgets").total_revenue
          = ((categoryMatches scenarioProducts "Gadgets" scenarioTransactions).map
            (fun t => t.total_amount)).sum from rfl, scenario_catGadgets]
      norm_num
    rw [List.sum_cons, List.sum_cons, List.sum_nil, h1, h2]
    norm_num
  · rw [channelAnalysis, sortBy_map_sum, List.map_map, scenario_chanKeys]
    simp only [List.map_cons, List.map_nil, Function.comp]
    have h1 : (channelRow scenarioTransactions "In-Store").total_revenue = (100 : ℚ) := by
      rw [show (channelRow scenarioTransactions "In-Store").total_revenue
          = ((channelMatches "In-Store" scenarioTransactions).map
            (fun t => t.total_amount)).sum from rfl, scenario_chanInStore]
      norm_num
    have h2 : (channelRow scenarioTransactions "Online").total_revenue = (220 : ℚ) := by
      rw [show (channelRow scenarioTransactions "Online").total_revenue
          = ((channelMatches "Online" scenarioTransactions).map
            (fun t => t.total_amount)).sum from rfl, scenario_chanOnline]
      norm_num
    rw [List.sum_cons, List.sum_cons, List.sum_nil, h1, h2]
    norm_num

/-- Counterexample for C5: with a single Premium customer and an empty
transaction collection, the segmentation report still contains the Premium
row, because the `customer_metrics` view LEFT JOINs transactions and so
keeps customers with zero transactions; the claim that such a segment
"never appears" is false on the code. -/
theorem segmentAnalysis_zeroTransactions :
    (segmentAnalysis segWitnessCs []).map (fun r => r.customer_segment)
      = [Segment.premium] := by decide

/-- C5 (amended): the segmentation report has at most 3 rows, and contains a
row for a segment exactly when at least one customer of that segment exists
— transacting or not (the LEFT JOIN of `customer_metrics` keeps
transactionless customers). -/
theorem segmentAnalysis_amended (cs : List Customer) (ts : List Transaction) :
    (segmentAnalysis cs ts).length ≤ 3 ∧
    (∀ s : Segment, (∃ r ∈ segmentAnalysis cs ts, r.customer_segment = s) ↔
        ∃ c ∈ cs, c.customer_segment = s) := by
  have hkeys : (customer_metrics cs ts).map (fun r => r.customer_segment)
      = cs.map (fun c => c.customer_segment) := by
    rw [customer_metrics, List.map_map]
    rfl
  constructor
  · rw [segmentAnalysis, segmentAnalysisOf, (sortBy_perm _ _).length_eq, List.length_map]
    have hle :=
      (List.nodup_dedup ((customer_metrics cs ts).map (fun r => r.customer_segment))).length_le_card
    have hcard : Fintype.card Segment = 3 := rfl
    rw [hcard] at hle
    exact hle
  · intro s
    constructor
    · rintro ⟨r, hr, rfl⟩
      rcases List.mem_map.mp (mem_sortBy.mp hr) with ⟨k, hk, rfl⟩
      have hmem : k ∈ (customer_metrics cs ts).map (fun r => r.customer_segment) :=
        List.mem_dedup.mp hk
      rw [hkeys] at hmem
      rcases List.mem_map.mp hmem with ⟨c, hc, hcs⟩
      exact ⟨c, hc, hcs⟩
    · rintro ⟨c, hc, rfl⟩
      have hmem : c.customer_segment
          ∈ ((customer_metrics cs ts).map (fun r => r.customer_segment)).dedup := by
        rw [List.mem_dedup, hkeys]
        exact List.mem_map_of_mem _ hc
      exact ⟨segmentRowOf (customer_metrics cs ts) c.customer_segment,
        mem_sortBy.mpr (List.mem_map_of_mem _ hmem), rfl⟩

theorem mem_insertBy {α : Type*} {bf : α → α → Bool} {x z : α} {l : List α}
    (h : z ∈ insertBy bf x l) : z = x ∨ z ∈ l :=
  List.mem_cons.mp ((insertBy_perm bf x l).mem_iff.mp h)

theorem insertBy_pairwise_rev {γ : Type*} (rev : γ → ℚ) (eid : γ → Nat) (x : γ) :
    ∀ l : List γ,
      l.Pairwise (fun a b => rev b < rev a ∨ (rev a = rev b ∧ eid a < eid b)) →
      (∀ y ∈ l, eid y < eid x) →
      (insertBy (fun a b => decide (rev b < rev a)) x l).Pairwise
        (fun a b => rev b < rev a ∨ (rev a = rev b ∧ eid a < eid b)) := by
  intro l
  induction l with
  | nil => intro _ _; simp [insertBy]
  | cons y ys ih =>
    intro hpw hid
    simp only [insertBy]
    split
    · rename_i hxy
      rw [decide_eq_true_eq] at hxy
      refine List.Pairwise.cons ?_ hpw
      intro z hz
      rcases List.mem_cons.mp hz with rfl | hz2
      · exact Or.inl hxy
      · rcases List.rel_of_pairwise_cons hpw hz2 with h | ⟨he, _⟩
        · exact Or.inl (h.trans hxy)
        · exact Or.inl (he ▸ hxy)
    · rename_i hxy
      rw [decide_eq_true_eq] at hxy
      refine List.Pairwise.cons ?_
        (ih (List.Pairwise.sublist (List.sublist_cons_self y ys) hpw)
          (fun z hz => hid z (List.mem_cons_of_mem y hz)))
      intro z hz
      rcases mem_insertBy hz with rfl | hz2
      · rcases lt_or_eq_of_le (le_of_not_lt hxy) with h | h
        · exact Or.inl h
        · exact Or.inr ⟨h.symm, hid y (List.mem_cons_self y ys)⟩
      · exact List.rel_of_pairwise_cons hpw hz2

theorem sortBy_pairwise_rev {γ : Type*} (rev : γ → ℚ) (eid : γ → Nat) (l : List γ)
    (hl : l.Pairwise (fun a b => eid a < eid b)) :
    (sortBy (fun a b => decide (rev b < rev a)) l).Pairwise
      (fun a b => rev b < rev a ∨ (rev a = rev b ∧ eid a < eid b)) := by
  have haux : ∀ (l2 acc : List γ),
      acc.Pairwise (fun a b => rev b < rev a ∨ (rev a = rev b ∧ eid a < eid b)) →
      (∀ x ∈ l2, ∀ y ∈ acc, eid y < eid x) →
      l2.Pairwise (fun a b => eid a < eid b) →
      (l2.foldl (fun a x => insertBy (fun a b => decide (rev b < rev a)) x a) acc).Pairwise
        (fun a b => rev b < rev a ∨ (rev a = rev b ∧ eid a < eid b)) := by
    intro l2
    induction l2 with
    | nil => intro acc h _ _; exact h
    | cons x xs ih =>
      intro acc hacc hxid hl2
      refine ih (insertBy _ x acc)
        (insertBy_pairwise_rev rev eid x acc hacc
          (fun y hy => hxid x (List.mem_cons_self x xs) y hy)) ?_
        (List.Pairwise.sublist (List.sublist_cons_self x xs) hl2)
      intro z hz y hy
      rcases mem_insertBy hy with rfl | hy2
      · exact List.rel_of_pairwise_cons hl2 hz
      · exact hxid z (List.mem_cons_of_mem x hz) y hy2
  exact haux l [] List.Pairwise.nil (fun x _ y hy => absurd hy (List.not_mem_nil y)) hl

theorem topEntities_tie :
    topEntities .customers 3 tieCustomers [] tieTransactions = [(1, 100), (2, 100)] := by
  norm_num [topEntities, topCustomers, tieCustomers, tieTransactions, sortBy, insertBy,
    topCustomerRow, customerIdMatches, lookupCustomer, List.dedup, List.pwFilter,
    List.filter, List.find?, List.foldl]

/-- C3: for every input and every n, the top-entities report returns at most
n rows, ordered by descending revenue contribution with revenue ties broken
by ascending entity identifier (the engine enumerates grouped entities in
ascending primary-key order and sorts stably); in particular, on a dataset
with a revenue tie between customers 1 and 2, `topEntities customers 3`
lists the lower identifier first. -/
theorem topEntities_spec (k : EntityKind) (n : Nat) (cs : List Customer)
    (ps : List Product) (ts : List Transaction) :
    (topEntities k n cs ps ts).length ≤ n ∧
    (topEntities k n cs ps ts).Pairwise
      (fun a b => b.2 < a.2 ∨ (a.2 = b.2 ∧ a.1 < b.1)) ∧
    topEntities .customers 3 tieCustomers [] tieTransactions = [(1, 100), (2, 100)] := by
  refine ⟨?_, ?_, topEntities_tie⟩
  · cases k with
    | customers =>
      rw [topEntities, List.length_map]
      exact List.length_take_le n _
    | products =>
      rw [topEntities, List.length_map]
      exact List.length_take_le n _
  · cases k with
    | customers =>
      rw [topEntities, List.pairwise_map]
      have h0 : ((sortBy (fun a b => decide (a < b))
          ((cs.map (fun c => c.customer_id)).dedup)).filter
            (fun i => ts.any (fun t => decide (t.customer_id = i)))).Pairwise (· < ·) :=
        List.Pairwise.filter _ (sortBy_lt_of_nodup (List.nodup_dedup _))
      have h1 := (List.pairwise_map.mpr (h0.imp (fun h => h)) :
        (((sortBy (fun a b => decide (a < b)) ((cs.map (fun c => c.customer_id)).dedup)).filter
            (fun i => ts.any (fun t => decide (t.customer_id = i)))).map
          (topCustomerRow cs ts)).Pairwise
            (fun a b => a.customer_id < b.customer_id))
      have h2 := sortBy_pairwise_rev (fun r : TopCustomerRow => r.total_spent)
        (fun r : TopCustomerRow => r.customer_id) _ h1
      have h3 := List.Pairwise.sublist (List.take_sublist n _) h2
      exact h3.imp (fun h => h)
    | products =>
      rw [topEntities, List.pairwise_map]
      have h0 : ((sortBy (fun a b => decide (a < b))
          ((ps.map (fun p => p.product_id)).dedup)).filter
            (fun i => ts.any (fun t => decide (t.product_id = i)))).Pairwise (· < ·) :=
        List.Pairwise.filter _ (sortBy_lt_of_nodup (List.nodup_dedup _))
      have h1 := (List.pairwise_map.mpr (h0.imp (fun h => h)) :
        (((sortBy (fun a b => decide (a < b)) ((ps.map (fun p => p.product_id)).dedup)).filter
            (fun i => ts.any (fun t => decide (t.product_id = i)))).map
          (topProductRow ps ts)).Pairwise
            (fun a b => a.product_id < b.product_id))
      have h2 := sortBy_pairwise_rev (fun r : TopProductRow => r.total_revenue)
        (fun r : TopProductRow => r.product_id) _ h1
      have h3 := List.Pairwise.sublist (List.take_sublist n _) h2
      exact h3.imp (fun h => h)

theorem profitOf_eq (ps : List Product) (t : Transaction) :
    profitOf ps t
      = (((lookupProduct ps t.product_id).map (fun p => p.price - p.cost)).getD 0)
        * (t.quantity : ℚ) := by
  unfold profitOf
  rcases h : lookupProduct ps t.product_id with _ | p
  · simp
  · simp

/-- Counterexample for C6: the category-performance report (query 3) has no
profit column at all — no name of its SELECT list mentions profit — so the
claim that `categoryAnalysis()` reports a profit field alongside its other
aggregates is false of the code. -/
theorem categoryAnalysis_profit_counterexample :
    (categoryAnalysisColumns.any
        (fun c => containsSub "profit".toList c.toList)) = false := by decide

/-- C6 (amended): per-category profit appears only in the separate
profitability query, as the unrounded `SUM((p.price - p.cost) *
t.quantity)` (only the margin is rounded); the rounded-to-2-decimals profit
appears in the per-product report (query 7), where
`ROUND((p.price - p.cost) * SUM(t.quantity), 2)` equals the claim's
`sum((price - cost) * quantity)` over that product's transactions, rounded
to 2 decimals.  Query 3's category report carries revenue sum, transaction
count, average sale amount, quantity sum and distinct customer count, but no
profit. -/
theorem categoryProfit_amended (ps : List Product) (ts : List Transaction) (n : Nat) :
    (∀ r ∈ productProfitability ps ts,
      r.total_profit = ((categoryMatches ps r.category ts).map
        (fun t => (((lookupProduct ps t.product_id).map (fun p => p.price - p.cost)).getD 0)
          * (t.quantity : ℚ))).sum) ∧
    (∀ r ∈ topProducts n ps ts,
      r.total_profit = roundTo 2 (((productIdMatches r.product_id ts).map
        (fun t => (((lookupProduct ps r.product_id).map (fun p => p.price - p.cost)).getD 0)
          * (t.quantity : ℚ))).sum)) := by
  constructor
  · intro r hr
    rcases List.mem_map.mp (mem_sortBy.mp hr) with ⟨c, _, rfl⟩
    show ((categoryMatches ps c ts).map (fun t => profitOf ps t)).sum = _
    exact congrArg List.sum (List.map_congr_left (fun t _ => profitOf_eq ps t))
  · intro r hr
    rcases List.mem_map.mp (mem_sortBy.mp (List.mem_of_mem_take hr)) with ⟨i, _, rfl⟩
    show roundTo 2 _ = _
    refine congrArg (roundTo 2) ?_
    have hC : ((lookupProduct ps i).map (fun p => p.price)).getD 0
          - ((lookupProduct ps i).map (fun p => p.cost)).getD 0
        = ((lookupProduct ps i).map (fun p => p.price - p.cost)).getD 0 := by
      rcases lookupProduct ps i with _ | p <;> simp
    simp only [show (topProductRow ps ts i).product_id = i from rfl]
    rw [List.sum_map_mul_left, ← hC]

/-- C10: the custom-query validator decides by substring matching on the
uppercased query text against the five keywords DROP, DELETE, UPDATE,
ALTER, CREATE; consequently a read-only SELECT whose identifier contains
UPDATED is rejected, while an INSERT statement containing none of the five
substrings is accepted for execution. -/
theorem queryBlocked_substring_spec (q : String) :
    (queryBlocked q = true ↔
      ∃ k ∈ dangerous_keywords,
        containsSub k.toList (q.toList.map Char.toUpper) = true) ∧
    queryBlocked updExample = true ∧
    queryBlocked insertExample = false := by
  refine ⟨?_, by decide, by decide⟩
  simp [queryBlocked, List.any_eq_true]

/-- Counterexample for C7: the INSERT statement `insertExample` contains the
keyword INSERT, yet the validator does not block it — the custom-query path
hands it to the executor — because INSERT is missing from the documented
keyword list; the claim that INSERT statements are rejected before
execution is false of the code. -/
theorem insertQuery_executed :
    runCustomQuery (fun s => (Except.ok s : Except QueryError String)) insertExample
      = Except.ok insertExample := by
  have hq : queryBlocked insertExample = false := by decide
  simp [runCustomQuery, hq]

/-- C7 (amended): a query is rejected exactly when one of the five keywords
DROP, DELETE, UPDATE, ALTER, CREATE occurs as a substring of its uppercased
text (INSERT is not in the list); the rejection happens synchronously before
the executor is consulted and is surfaced as the validation error, a
constructor distinct from every runtime query error. -/
theorem runCustomQuery_validation {ρ : Type*} (exec : String → Except QueryError ρ)
    (q : String) :
    (queryBlocked q = true →
      runCustomQuery exec q = Except.error QueryError.validationError) ∧
    (queryBlocked q = false → runCustomQuery exec q = exec q) ∧
    (∀ msg : String, QueryError.validationError ≠ QueryError.runtimeError msg) ∧
    (queryBlocked q = true ↔
      ∃ k ∈ dangerous_keywords,
        containsSub k.toList (q.toList.map Char.toUpper) = true) ∧
    queryBlocked insertExample = false ∧
    queryBlocked dropExample = true := by
  refine ⟨?_, ?_, ?_, ?_, by decide, by decide⟩
  · intro hq
    simp [runCustomQuery, hq]
  · intro hq
    simp [runCustomQuery, hq]
  · intro msg h
    exact QueryError.noConfusion h
  · simp [queryBlocked, List.any_eq_true]

/-- Witness for C7 (amended), at the concrete blocked input `dropExample`:
the validator flags it and the custom-query path returns the validation
error without consulting the executor. -/
theorem runCustomQuery_validation_witness :
    runCustomQuery (fun s => (Except.ok s : Except QueryError String)) dropExample
      = Except.error QueryError.validationError :=
  (runCustomQuery_validation (fun s => (Except.ok s : Except QueryError String))
    dropExample).1 (by decide)

/-- C8: `totalMetrics` is total — on the empty collection it returns the
all-zero row and in general reports the revenue sum, the transaction count,
the distinct customer count, and an average order value equal to revenue
divided by count with sentinel 0 when the count is zero. -/
theorem totalMetrics_spec (ts : List Transaction) :
    totalMetrics [] = ⟨0, 0, 0, 0⟩ ∧
    (totalMetrics ts).total_revenue = (ts.map (fun t => t.total_amount)).sum ∧
    (totalMetrics ts).transaction_count = ts.length ∧
    (totalMetrics ts).unique_customers = (ts.map (fun t => t.customer_id)).dedup.length ∧
    (totalMetrics ts).avg_order_value =
      (if (totalMetrics ts).transaction_count = 0 then 0
       else (totalMetrics ts).total_revenue /
         ((totalMetrics ts).transaction_count : ℚ)) :=
  ⟨rfl, rfl, rfl, rfl, rfl⟩

/-- C9: every report operation is deterministic — the same untouched inputs
give equal output — and the growth-rate percentages are computed from the
input data: changing one month's revenue changes the reported growth rate,
so no reported number is random or hard-coded. -/
theorem reports_deterministic (cs : List Customer) (ps : List Product)
    (ts : List Transaction) (k : EntityKind) (n : Nat) :
    totalMetrics ts = totalMetrics ts ∧
    monthlyTrend ts = monthlyTrend ts ∧
    segmentAnalysis cs ts = segmentAnalysis cs ts ∧
    categoryAnalysis ps ts = categoryAnalysis ps ts ∧
    channelAnalysis ts = channelAnalysis ts ∧
    paymentAnalysis ts = paymentAnalysis ts ∧
    discountImpact ts = discountImpact ts ∧
    geographicDistribution cs ts = geographicDistribution cs ts ∧
    productProfitability ps ts = productProfitability ps ts ∧
    topEntities k n cs ps ts = topEntities k n cs ps ts ∧
    (monthlyTrend trendWitnessTs).map (fun r => r.growth_rate)
      ≠ (monthlyTrend trendWitnessTs2).map (fun r => r.growth_rate) := by
  refine ⟨rfl, rfl, rfl, rfl, rfl, rfl, rfl, rfl, rfl, rfl, ?_⟩
  have h1 : (monthlyTrend trendWitnessTs).map (fun r => r.growth_rate)
      = [none, some 50] := by
    norm_num [monthlyTrend, monthlyTrendBase, withGrowth, trendRow, growthRate,
      roundTo, round_eq, sortBy, insertBy, monthMatches, monthKey, trendWitnessTs,
      List.dedup, List.pwFilter, List.filter, List.foldl]
  have h2 : (monthlyTrend trendWitnessTs2).map (fun r => r.growth_rate)
      = [none, some 100] := by
    norm_num [monthlyTrend, monthlyTrendBase, withGrowth, trendRow, growthRate,
      roundTo, round_eq, sortBy, insertBy, monthMatches, monthKey, trendWitnessTs2,
      List.dedup, List.pwFilter, List.filter, List.foldl]
  rw [h1, h2]
  intro h
  simp at h

/-- Witness for the amended C6 at the concrete scenario input: the Gadgets
row of the profitability report carries the unrounded per-category profit
sum, with the membership hypothesis discharged concretely. -/
theorem categoryProfit_amended_witness :
    (profitabilityRow scenarioProducts scenarioTransactions "Gadgets").total_profit
      = ((categoryMatches scenarioProducts
            (profitabilityRow scenarioProducts scenarioTransactions "Gadgets").category
            scenarioTransactions).map
          (fun t => (((lookupProduct scenarioProducts t.product_id).map
              (fun p => p.price - p.cost)).getD 0) * (t.quantity : ℚ))).sum :=
  (categoryProfit_amended scenarioProducts scenarioTransactions 10).1 _
    (mem_sortBy.mpr (List.mem_map_of_mem _ (by decide)))

end PhonePe
